import Mathlib

/-!
Shallow embedding of the Light HAL service of the sdm8150-common device tree
(src/light/Light.cpp). The service maps abstract light requests (attention,
notification, backlight) to two sysfs control surfaces: the panel backlight
brightness node and the indicator LED blink node. Device writes are modelled
as an explicit trace (`List DeviceWrite`); the controller object `Light` holds
the two persisted `LightState` slots and the panel maximum brightness read at
construction. Each handler is a pure state-transition function returning the
updated controller together with the writes it issues, which models the
C++ code where every handler runs atomically under the controller mutex.
-/

/-- `android.hardware.light.V2_0.LightState`: a 32-bit color word plus
flash/brightness metadata. Only `color` is ever read by this module. -/
structure LightState where
  color : Nat
  flashMode : Nat
  flashOnMs : Nat
  flashOffMs : Nat
  brightnessMode : Nat
  deriving DecidableEq, Repr

/-- `android.hardware.light.V2_0.Type` (named `LightType` because `Type` is a
Lean keyword), in the declaration order of the HAL interface. -/
inductive LightType where
  | BACKLIGHT
  | KEYBOARD
  | BUTTONS
  | BATTERY
  | NOTIFICATIONS
  | ATTENTION
  | BLUETOOTH
  | WIFI
  deriving DecidableEq, BEq, Repr

/-- `android.hardware.light.V2_0.Status`; the service only ever produces
`SUCCESS` and `LIGHT_NOT_SUPPORTED`. -/
inductive Status where
  | SUCCESS
  | LIGHT_NOT_SUPPORTED
  | BRIGHTNESS_NOT_SUPPORTED
  | UNKNOWN
  deriving DecidableEq, Repr

/-- One observable sysfs write: either to PANEL_BRIGHTNESS_PATH or to
MX_LED_BLINK_PATH. -/
inductive DeviceWrite where
  | panelBrightness (value : Nat)
  | ledBlink (value : Nat)
  deriving DecidableEq, Repr

/-- `DEFAULT_MAX_BRIGHTNESS` from Light.cpp. -/
def DEFAULT_MAX_BRIGHTNESS : Nat := 255

/-- `LED_OFF` from Light.cpp. -/
def LED_OFF : Nat := 0

/-- `LED_BLINK` from Light.cpp. -/
def LED_BLINK : Nat := 10

/-- `rgbToBrightness` from Light.cpp: mask the color to its 24-bit RGB
payload and combine the channels with the fixed luma weights. All
arithmetic is on values below 2^32, so `Nat` matches the C `uint32_t`
computation exactly. -/
def rgbToBrightness (state : LightState) : Nat :=
  let color := state.color &&& 0x00ffffff
  ((77 * ((color >>> 16) &&& 0xff)) + (150 * ((color >>> 8) &&& 0xff)) +
      (29 * (color &&& 0xff))) >>> 8

/-- `isLit` from Light.cpp: the 24-bit RGB payload is non-zero. -/
def isLit (state : LightState) : Bool :=
  (state.color &&& 0x00ffffff) != 0

/-- The controller object. The fields are the data members of the `Light`
class. The member declarations live in Light.h, which is not among the
sources; `mPanelMaxBrightness` is modelled from the spec as "an integer read
once at start-up ... defaults to 255", i.e. an unbounded natural (sysfs
maximum-brightness values are small non-negative integers). -/
structure Light where
  mPanelMaxBrightness : Nat
  mAttentionState : LightState
  mNotificationState : LightState
  deriving DecidableEq, Repr

/-- The all-zero `LightState` a default-constructed (zero-initialized) HIDL
struct holds; both controller slots start in this state. -/
def zeroLightState : LightState :=
  { color := 0, flashMode := 0, flashOnMs := 0, flashOffMs := 0, brightnessMode := 0 }

/-- `get` from Light.cpp: read a value from a file, returning the default
when the read fails. The file is modelled as `Option Nat`: `none` covers an
absent file as well as unparseable content (both make `file.fail()` true). -/
def get (file : Option Nat) (d : Nat) : Nat :=
  match file with
  | none => d
  | some result => result

/-- The `Light::Light()` constructor: read the panel maximum brightness from
the capability file (falling back to `DEFAULT_MAX_BRIGHTNESS`) and start
with both logical lights unlit. -/
def Light.construct (panelMaxBrightnessFile : Option Nat) : Light :=
  { mPanelMaxBrightness := get panelMaxBrightnessFile DEFAULT_MAX_BRIGHTNESS
    mAttentionState := zeroLightState
    mNotificationState := zeroLightState }

/-- `Light::setSpeakerBatteryLightLocked`: arbitrate the shared indicator
LED from the two stored states and emit the single blink-node write. -/
def Light.setSpeakerBatteryLightLocked (l : Light) : List DeviceWrite :=
  if isLit l.mNotificationState then
    [DeviceWrite.ledBlink LED_BLINK]
  else if isLit l.mAttentionState then
    [DeviceWrite.ledBlink LED_BLINK]
  else
    [DeviceWrite.ledBlink LED_OFF]

/-- `Light::setAttentionLight`: store the state in the attention slot and
re-run the LED arbitration. -/
def Light.setAttentionLight (l : Light) (state : LightState) :
    Light × List DeviceWrite :=
  let l1 := { l with mAttentionState := state }
  (l1, l1.setSpeakerBatteryLightLocked)

/-- `Light::setNotificationLight`: store the state in the notification slot
and re-run the LED arbitration. -/
def Light.setNotificationLight (l : Light) (state : LightState) :
    Light × List DeviceWrite :=
  let l1 := { l with mNotificationState := state }
  (l1, l1.setSpeakerBatteryLightLocked)

/-- `Light::setPanelBacklight`: convert the state to a luma value, rescale
it linearly when the panel maximum differs from 255, and write the result
to the brightness node. The controller state is not touched. -/
def Light.setPanelBacklight (l : Light) (state : LightState) :
    Light × List DeviceWrite :=
  let brightness := rgbToBrightness state
  let brightness1 :=
    if l.mPanelMaxBrightness ≠ DEFAULT_MAX_BRIGHTNESS then
      brightness * l.mPanelMaxBrightness / DEFAULT_MAX_BRIGHTNESS
    else
      brightness
  (l, [DeviceWrite.panelBrightness brightness1])

/-- `mLights`, as populated by the constructor: the three channel handlers,
listed in the order the constructor registers them. Modelled from the spec:
the container type of `mLights` is declared in Light.h, which is not among
the sources; the spec fixes the iteration order to the registration order
(ATTENTION, BACKLIGHT, NOTIFICATIONS), so an association list in that order
is used. -/
def mLights : List (LightType × (Light → LightState → Light × List DeviceWrite)) :=
  [(LightType.ATTENTION, Light.setAttentionLight),
   (LightType.BACKLIGHT, Light.setPanelBacklight),
   (LightType.NOTIFICATIONS, Light.setNotificationLight)]

/-- `Light::setLight`: look the channel up in `mLights`; unknown channels
get `LIGHT_NOT_SUPPORTED` with no side effect, known channels run their
handler and return `SUCCESS`. -/
def Light.setLight (l : Light) (type : LightType) (state : LightState) :
    Light × List DeviceWrite × Status :=
  match mLights.find? (fun p => p.1 == type) with
  | none => (l, ([], Status.LIGHT_NOT_SUPPORTED))
  | some it =>
    let r := it.2 l state
    (r.1, (r.2, Status.SUCCESS))

/-- `Light::getSupportedTypes`: the keys of `mLights`, in iteration order. -/
def getSupportedTypes : List LightType :=
  mLights.map Prod.fst

/-- Helper: build a `LightState` carrying only a color, with zeroed
metadata. -/
def mkState (c : Nat) : LightState :=
  { zeroLightState with color := c }

/-- A sample controller used to instantiate universally quantified
theorems. -/
def sampleLight : Light :=
  { mPanelMaxBrightness := 255
    mAttentionState := zeroLightState
    mNotificationState := zeroLightState }

/-! ## Theorems -/

/-- C1: after every ATTENTION or NOTIFICATION update the value written to
the LED blink node is exactly the priority function of the two stored
states: BLINK (10) when the stored notification state is lit, else BLINK
(10) when the stored attention state is lit, else OFF (0). The written
value is determined by those two slots alone. -/
theorem C1_led_arbitration (l : Light) (state : LightState) :
    (l.setAttentionLight state).2 =
      [DeviceWrite.ledBlink
        (if isLit (l.setAttentionLight state).1.mNotificationState then LED_BLINK
         else if isLit (l.setAttentionLight state).1.mAttentionState then LED_BLINK
         else LED_OFF)] ∧
    (l.setNotificationLight state).2 =
      [DeviceWrite.ledBlink
        (if isLit (l.setNotificationLight state).1.mNotificationState then LED_BLINK
         else if isLit (l.setNotificationLight state).1.mAttentionState then LED_BLINK
         else LED_OFF)] := by
  constructor <;>
    simp only [Light.setAttentionLight, Light.setNotificationLight,
      Light.setSpeakerBatteryLightLocked] <;>
    by_cases h1 : isLit state <;>
    by_cases h2 : isLit l.mNotificationState <;>
    by_cases h3 : isLit l.mAttentionState <;>
    simp [h1, h2, h3]

/-- C2 (counterexample): with PanelMaxBrightness = 4095 and a color whose
luma is 128 (0x808080), the value written to the backlight node is 2055,
not 2056: 128 * 4095 = 524160 and 524160 / 255 truncates to 2055. -/
theorem C2_counterexample :
    rgbToBrightness (mkState 0x00808080) = 128 ∧
    ((Light.mk 4095 zeroLightState zeroLightState).setPanelBacklight
        (mkState 0x00808080)).2 ≠ [DeviceWrite.panelBrightness 2056] ∧
    ((Light.mk 4095 zeroLightState zeroLightState).setPanelBacklight
        (mkState 0x00808080)).2 = [DeviceWrite.panelBrightness 2055] := by
  decide

/-- C2 (amended): when the stored PanelMaxBrightness differs from 255, the
backlight handler writes luma * PanelMaxBrightness / 255 with truncating
integer division; for PanelMaxBrightness = 4095 and luma 128 the scaled
value is 2055. -/
theorem C2_backlight_scaling (l : Light) (state : LightState)
    (h : l.mPanelMaxBrightness ≠ 255) :
    (l.setPanelBacklight state).2 =
      [DeviceWrite.panelBrightness
        (rgbToBrightness state * l.mPanelMaxBrightness / 255)] ∧
    128 * 4095 / 255 = 2055 := by
  refine ⟨?_, by norm_num⟩
  simp [Light.setPanelBacklight, DEFAULT_MAX_BRIGHTNESS, h]

/-- C2 witness: instantiates the scaling theorem at PanelMaxBrightness 4095
with the luma-128 color 0x808080. -/
theorem C2_backlight_scaling_witness :
    (Light.mk 4095 zeroLightState zeroLightState).mPanelMaxBrightness ≠ 255 ∧
    ((Light.mk 4095 zeroLightState zeroLightState).setPanelBacklight
        (mkState 0x00808080)).2 =
      [DeviceWrite.panelBrightness
        (rgbToBrightness (mkState 0x00808080) *
          (Light.mk 4095 zeroLightState zeroLightState).mPanelMaxBrightness / 255)] :=
  ⟨by decide,
   (C2_backlight_scaling (Light.mk 4095 zeroLightState zeroLightState)
      (mkState 0x00808080) (by decide)).1⟩

/-- C3: for every channel outside {ATTENTION, BACKLIGHT, NOTIFICATIONS},
setLight returns LIGHT_NOT_SUPPORTED, issues no device write, and returns
the controller unchanged, for every LightState. -/
theorem C3_unsupported_channel (l : Light) (t : LightType) (s : LightState)
    (h : t ≠ LightType.ATTENTION ∧ t ≠ LightType.BACKLIGHT ∧
      t ≠ LightType.NOTIFICATIONS) :
    l.setLight t s = (l, ([], Status.LIGHT_NOT_SUPPORTED)) := by
  obtain ⟨h1, h2, h3⟩ := h
  cases t <;> first | rfl | simp at h1 h2 h3

/-- C3 witness: the BATTERY channel is rejected without touching a sample
controller. -/
theorem C3_unsupported_channel_witness :
    (LightType.BATTERY ≠ LightType.ATTENTION ∧
      LightType.BATTERY ≠ LightType.BACKLIGHT ∧
      LightType.BATTERY ≠ LightType.NOTIFICATIONS) ∧
    sampleLight.setLight LightType.BATTERY (mkState 0x00ff0000) =
      (sampleLight, ([], Status.LIGHT_NOT_SUPPORTED)) :=
  ⟨by decide,
   C3_unsupported_channel sampleLight LightType.BATTERY (mkState 0x00ff0000)
     (by decide)⟩

/-- C4: the luma of every LightState is (77*R + 150*G + 29*B) / 256 over
the 8-bit R, G, B components of the 24-bit color payload, and the four
spec instances evaluate to 76, 149, 28 and 255. -/
theorem C4_luma_conversion (s : LightState) :
    rgbToBrightness s =
      (77 * (s.color / 65536 % 256) + 150 * (s.color / 256 % 256) +
        29 * (s.color % 256)) / 256 ∧
    rgbToBrightness (mkState 0x00ff0000) = 76 ∧
    rgbToBrightness (mkState 0x0000ff00) = 149 ∧
    rgbToBrightness (mkState 0x000000ff) = 28 ∧
    rgbToBrightness (mkState 0x00ffffff) = 255 := by
  refine ⟨?_, by decide, by decide, by decide, by decide⟩
  simp only [rgbToBrightness]
  have h24 : (0x00ffffff : Nat) = 2 ^ 24 - 1 := by norm_num
  have h8 : (0xff : Nat) = 2 ^ 8 - 1 := by norm_num
  rw [h24, h8]
  simp only [Nat.and_pow_two_sub_one_eq_mod, Nat.shiftRight_eq_div_pow]
  omega

/-- C5: getSupportedTypes is exactly {ATTENTION, BACKLIGHT, NOTIFICATIONS},
listed in registration order; it depends on nothing mutable, so it is the
same after any call history. -/
theorem C5_supported_types :
    getSupportedTypes =
      [LightType.ATTENTION, LightType.BACKLIGHT, LightType.NOTIFICATIONS] ∧
    ∀ t : LightType, t ∈ getSupportedTypes ↔
      (t = LightType.ATTENTION ∨ t = LightType.BACKLIGHT ∨
        t = LightType.NOTIFICATIONS) := by
  refine ⟨rfl, fun t => ?_⟩
  cases t <;> simp [getSupportedTypes, mLights]

/-- C6: on every supported channel, repeating setLight with the identical
state leaves the controller exactly where the first call put it and emits
the same writes and the same status as the first call. -/
theorem C6_setLight_idempotent (l : Light) (t : LightType) (s : LightState)
    (h : t ∈ getSupportedTypes) :
    ((l.setLight t s).1.setLight t s).1 = (l.setLight t s).1 ∧
    ((l.setLight t s).1.setLight t s).2.1 = (l.setLight t s).2.1 ∧
    ((l.setLight t s).1.setLight t s).2.2 = (l.setLight t s).2.2 := by
  clear h
  cases t <;> exact ⟨rfl, rfl, rfl⟩

/-- C6 witness: repeating an ATTENTION request on a sample controller
reproduces the first call's resulting state. -/
theorem C6_setLight_idempotent_witness :
    LightType.ATTENTION ∈ getSupportedTypes ∧
    ((sampleLight.setLight LightType.ATTENTION (mkState 0x00ff0000)).1.setLight
        LightType.ATTENTION (mkState 0x00ff0000)).1 =
      (sampleLight.setLight LightType.ATTENTION (mkState 0x00ff0000)).1 :=
  ⟨by simp [getSupportedTypes, mLights],
   (C6_setLight_idempotent sampleLight LightType.ATTENTION (mkState 0x00ff0000)
      (by simp [getSupportedTypes, mLights])).1⟩

/-- C7: constructing the controller with an absent or unparseable
capability file yields PanelMaxBrightness 255, in which case the backlight
write is the luma unchanged; and no setLight call ever modifies
PanelMaxBrightness. -/
theorem C7_capability_fallback (s : LightState) (l : Light) (t : LightType) :
    (Light.construct none).mPanelMaxBrightness = 255 ∧
    ((Light.construct none).setPanelBacklight s).2 =
      [DeviceWrite.panelBrightness (rgbToBrightness s)] ∧
    (l.setLight t s).1.mPanelMaxBrightness = l.mPanelMaxBrightness := by
  refine ⟨rfl, rfl, ?_⟩
  cases t <;> rfl

/-- C8: every supported channel is dispatched to its registered handler
(whose state transition and writes form one atomic step, the model of the
critical section guarded by mLock) and setLight reports SUCCESS. -/
theorem C8_dispatch_success (l : Light) (t : LightType) (s : LightState)
    (h : t ∈ getSupportedTypes) :
    (l.setLight t s).2.2 = Status.SUCCESS ∧
    (t = LightType.ATTENTION →
      ((l.setLight t s).1, (l.setLight t s).2.1) = l.setAttentionLight s) ∧
    (t = LightType.BACKLIGHT →
      ((l.setLight t s).1, (l.setLight t s).2.1) = l.setPanelBacklight s) ∧
    (t = LightType.NOTIFICATIONS →
      ((l.setLight t s).1, (l.setLight t s).2.1) = l.setNotificationLight s) := by
  cases t with
  | ATTENTION =>
    exact ⟨rfl, fun hc => rfl, fun hc => absurd hc (by decide),
      fun hc => absurd hc (by decide)⟩
  | BACKLIGHT =>
    exact ⟨rfl, fun hc => absurd hc (by decide), fun hc => rfl,
      fun hc => absurd hc (by decide)⟩
  | NOTIFICATIONS =>
    exact ⟨rfl, fun hc => absurd hc (by decide), fun hc => absurd hc (by decide),
      fun hc => rfl⟩
  | KEYBOARD => simp [getSupportedTypes, mLights] at h
  | BUTTONS => simp [getSupportedTypes, mLights] at h
  | BATTERY => simp [getSupportedTypes, mLights] at h
  | BLUETOOTH => simp [getSupportedTypes, mLights] at h
  | WIFI => simp [getSupportedTypes, mLights] at h

/-- C8 witness: a NOTIFICATIONS request on a sample controller returns
SUCCESS. -/
theorem C8_dispatch_success_witness :
    LightType.NOTIFICATIONS ∈ getSupportedTypes ∧
    (sampleLight.setLight LightType.NOTIFICATIONS
        (mkState 0x00ff0000)).2.2 = Status.SUCCESS :=
  ⟨by simp [getSupportedTypes, mLights],
   (C8_dispatch_success sampleLight LightType.NOTIFICATIONS (mkState 0x00ff0000)
      (by simp [getSupportedTypes, mLights])).1⟩

/-- Evaluation of the `mLights` lookup on the ATTENTION channel. -/
theorem setLight_ATTENTION_eq (l : Light) (s : LightState) :
    l.setLight LightType.ATTENTION s =
      ((l.setAttentionLight s).1, ((l.setAttentionLight s).2, Status.SUCCESS)) :=
  rfl

/-- Evaluation of the `mLights` lookup on the BACKLIGHT channel. -/
theorem setLight_BACKLIGHT_eq (l : Light) (s : LightState) :
    l.setLight LightType.BACKLIGHT s =
      ((l.setPanelBacklight s).1, ((l.setPanelBacklight s).2, Status.SUCCESS)) :=
  rfl

/-- Evaluation of the `mLights` lookup on the NOTIFICATIONS channel. -/
theorem setLight_NOTIFICATIONS_eq (l : Light) (s : LightState) :
    l.setLight LightType.NOTIFICATIONS s =
      ((l.setNotificationLight s).1, ((l.setNotificationLight s).2, Status.SUCCESS)) :=
  rfl

/-- C9: two states whose colors agree on bits 0-23 produce the same device
writes through setLight on every channel and the same lit/unlit decision,
whatever their high color bits and flash/brightness metadata. -/
theorem C9_low24_bits_only (l : Light) (t : LightType) (s1 s2 : LightState)
    (h : s1.color &&& 0x00ffffff = s2.color &&& 0x00ffffff) :
    (l.setLight t s1).2.1 = (l.setLight t s2).2.1 ∧ isLit s1 = isLit s2 := by
  have hl : isLit s1 = isLit s2 := by
    simp only [isLit, h]
  have hb : rgbToBrightness s1 = rgbToBrightness s2 := by
    simp only [rgbToBrightness, h]
  refine ⟨?_, hl⟩
  cases t <;> first
    | rfl
    | simp only [setLight_ATTENTION_eq, setLight_BACKLIGHT_eq,
        setLight_NOTIFICATIONS_eq, Light.setAttentionLight,
        Light.setNotificationLight, Light.setPanelBacklight,
        Light.setSpeakerBatteryLightLocked, hl, hb]

/-- C9 witness: a state with junk in bits 24-31 and nonzero flash metadata
behaves like its 24-bit truncation on the NOTIFICATIONS channel. -/
theorem C9_low24_bits_only_witness :
    (LightState.mk 0xff123456 1 500 500 2).color &&& 0x00ffffff =
      (LightState.mk 0x00123456 0 0 0 0).color &&& 0x00ffffff ∧
    ((sampleLight.setLight LightType.NOTIFICATIONS
        (LightState.mk 0xff123456 1 500 500 2)).2.1 =
      (sampleLight.setLight LightType.NOTIFICATIONS
        (LightState.mk 0x00123456 0 0 0 0)).2.1 ∧
      isLit (LightState.mk 0xff123456 1 500 500 2) =
        isLit (LightState.mk 0x00123456 0 0 0 0)) :=
  ⟨by decide,
   C9_low24_bits_only sampleLight LightType.NOTIFICATIONS
     (LightState.mk 0xff123456 1 500 500 2)
     (LightState.mk 0x00123456 0 0 0 0) (by decide)⟩

/-- Every run of the LED arbitration emits exactly one write to the blink
node. -/
theorem led_write_shape (l : Light) :
    ∃ v, l.setSpeakerBatteryLightLocked = [DeviceWrite.ledBlink v] := by
  unfold Light.setSpeakerBatteryLightLocked
  split
  · exact ⟨LED_BLINK, rfl⟩
  split
  · exact ⟨LED_BLINK, rfl⟩
  exact ⟨LED_OFF, rfl⟩

/-- C10: the backlight handler leaves the whole controller state unchanged
and writes only the backlight node; the attention and notification handlers
each leave the other slot and PanelMaxBrightness unchanged and write only
the LED blink node. -/
theorem C10_channel_isolation (l : Light) (s : LightState) :
    (l.setPanelBacklight s).1 = l ∧
    (∃ v, (l.setPanelBacklight s).2 = [DeviceWrite.panelBrightness v]) ∧
    (l.setAttentionLight s).1.mNotificationState = l.mNotificationState ∧
    (l.setAttentionLight s).1.mPanelMaxBrightness = l.mPanelMaxBrightness ∧
    (∃ v, (l.setAttentionLight s).2 = [DeviceWrite.ledBlink v]) ∧
    (l.setNotificationLight s).1.mAttentionState = l.mAttentionState ∧
    (l.setNotificationLight s).1.mPanelMaxBrightness = l.mPanelMaxBrightness ∧
    (∃ v, (l.setNotificationLight s).2 = [DeviceWrite.ledBlink v]) :=
  ⟨rfl, ⟨_, rfl⟩, rfl, rfl, led_write_shape _, rfl, rfl, led_write_shape _⟩
